import Mathlib

/-! Verification development for the reolink-api client library.

The definitions below are a shallow embedding of the response-normalization
layer (src/unnamed/part_001 and src/unnamed/part_000), of the PTZ wrapper
validation code (src/src/ptz.ts), and — where the repository sources only
contain the tests of the request engine — a model of the engine's submit and
retry contract written from the specification. -/

namespace Reolink

/-- JSON values as exchanged with the device.  Numbers are modelled as
integers: the protocol uses integral codes, ids, grid sizes and 0/1 flags. -/
inductive Json where
  | null
  | bool (b : Bool)
  | num (n : Int)
  | str (s : String)
  | arr (elems : List Json)
  | obj (fields : List (String × Json))

/-- Property lookup on an object (JavaScript `value[key]`); `none` plays the
role of `undefined`.  Non-objects have no looked-up properties here. -/
def Json.lookup : Json → String → Option Json
  | .obj fields, k => (fields.find? (fun kv => kv.fst == k)).map (fun kv => kv.snd)
  | _, _ => none

/-- JavaScript truthiness of a JSON value. -/
def Json.truthy : Json → Bool
  | .null => false
  | .bool b => b
  | .num n => n != 0
  | .str s => s != ""
  | .arr _ => true
  | .obj _ => true

/-- Array.isArray. -/
def Json.isArr : Json → Bool
  | .arr _ => true
  | _ => false

/-- A plain (non-array) object.  Combined with `truthy` this captures the
source's `typeof x === "object" && !Array.isArray(x)` tests, whose only
remaining object-typed value, `null`, is always excluded by a truthiness or a
non-null test first. -/
def Json.isPlainObj : Json → Bool
  | .obj _ => true
  | _ => false

/-- JavaScript `typeof x === "object" && x !== null` (arrays included). -/
def jsIsObjectType : Json → Bool
  | .obj _ => true
  | .arr _ => true
  | _ => false

/-- Key presence, JavaScript `key in value`. -/
def Json.hasKey (j : Json) (k : String) : Bool :=
  (j.lookup k).isSome

/-- Loose non-null test on a property read: `value[key] != null` is false
exactly when the property is absent (undefined) or null. -/
def jsNonNullProp (j : Json) (k : String) : Bool :=
  match j.lookup k with
  | some .null => false
  | some _ => true
  | none => false

/-- A value that is not null (JavaScript `x != null` on an array element,
where `undefined` cannot occur). -/
def jsNotNull : Json → Bool
  | .null => false
  | _ => true

/-- Nullish coalescing `a ?? b` over property reads: both `undefined`
(absence) and `null` fall through to the right operand. -/
def nnOr : Option Json → Option Json → Option Json
  | some Json.null, b => b
  | none, b => b
  | some v, _ => some v

/-- JavaScript `Number(x)` for the value kinds the device produces here
(integral numbers, booleans, null).  String and composite coercions, which
would produce NaN or require decimal parsing, are collapsed to 0; they do not
occur in the entities this development reasons about. -/
def jsNumber : Json → Int
  | .num n => n
  | .bool true => 1
  | .bool false => 0
  | _ => 0

/-- JavaScript `String(x)` for the value kinds that reach it here. -/
def jsString : Json → String
  | .str s => s
  | .num n => toString n
  | .bool true => "true"
  | .bool false => "false"
  | .null => "null"
  | _ => ""

/-- Canonical detection-zone grid (interface `GridArea`,
src/unnamed/part_001 lines 500-504). -/
structure GridArea where
  width : Int
  height : Int
  bits : String
deriving DecidableEq

/-- Raw motion-detection scope payload (interface `MdScopePayload`,
src/unnamed/part_001 lines 547-555). -/
structure MdScopePayload where
  cols : Option Int := none
  width : Option Int := none
  rows : Option Int := none
  height : Option Int := none
  table : Option String := none
  area : Option String := none
  bits : Option String := none

/-- Raw AI detection-area payload (interface `AiAreaPayload`,
src/unnamed/part_001 lines 557-565). -/
structure AiAreaPayload where
  width : Option Int := none
  cols : Option Int := none
  height : Option Int := none
  rows : Option Int := none
  area : Option String := none
  table : Option String := none
  bits : Option String := none

/-- The two failure shapes a grid normalizer can raise (the spec groups both
under NormalizationError); each carries the thrown message. -/
inductive NormError where
  | invalidScope (msg : String)
  | sizeMismatch (msg : String)
deriving DecidableEq

/-- Mirror of `normalizeMdScope` (src/unnamed/part_001 lines 687-698): width,
height and table are resolved through the `??` chains; a falsy (zero or
missing) dimension or a missing table is rejected, then the exact
length-equals-width-times-height invariant is enforced; on success the same
bit-string is returned, never truncated or padded. -/
def normalizeMdScope (scope : MdScopePayload) : Except NormError GridArea :=
  match scope.cols <|> scope.width, scope.rows <|> scope.height,
        scope.table <|> scope.area <|> scope.bits with
  | some w, some h, some t =>
    if w = 0 ∨ h = 0 then
      .error (.invalidScope "Invalid motion detection scope received from device")
    else if (t.length : Int) ≠ w * h then
      .error (.sizeMismatch "Motion detection scope size mismatch")
    else
      .ok { width := w, height := h, bits := t }
  | _, _, _ =>
    .error (.invalidScope "Invalid motion detection scope received from device")

/-- Mirror of `normalizeAiArea` (src/unnamed/part_001 lines 713-724); same
checks as the motion-detection normalizer, with the field priorities of the
AI payload (`width ?? cols`, `height ?? rows`, `area ?? table ?? bits`). -/
def normalizeAiArea (payload : AiAreaPayload) : Except NormError GridArea :=
  match payload.width <|> payload.cols, payload.height <|> payload.rows,
        payload.area <|> payload.table <|> payload.bits with
  | some w, some h, some t =>
    if w = 0 ∨ h = 0 then
      .error (.invalidScope "Invalid AI detection area received from device")
    else if (t.length : Int) ≠ w * h then
      .error (.sizeMismatch "AI detection area size mismatch")
    else
      .ok { width := w, height := h, bits := t }
  | _, _, _ =>
    .error (.invalidScope "Invalid AI detection area received from device")

/-- Canonical preset record (interface `PtzPreset`,
src/unnamed/part_001 lines 491-496). -/
structure PtzPreset where
  id : Int
  name : String
  enable : Bool
  channel : Int
deriving DecidableEq

/-- Duck-typing of the first element of a candidate array in the fallback
scan of `listPresets`: a truthy object-typed value with an `id` or `ID`
property.  The empty list is rejected (the source also requires
`value.length > 0`). -/
def looksLikePresetHead : List Json → Bool
  | [] => false
  | first :: _ =>
    first.truthy && jsIsObjectType first && (first.hasKey "id" || first.hasKey "ID")

/-- First half of the fallback scan body: a non-empty array whose first
element looks like a preset (src/unnamed/part_001 lines 801-808). -/
def arrayPresetHit : Json → Option Json
  | .arr es => if looksLikePresetHead es then some (.arr es) else none
  | _ => none

/-- Second half of the fallback scan body: a truthy plain object carrying a
`preset` or `Preset` array (src/unnamed/part_001 lines 810-820). -/
def nestedPresetHit (v : Json) : Option Json :=
  if v.truthy && v.isPlainObj then
    match v.lookup "preset" with
    | some q =>
      if q.isArr then some q
      else
        match v.lookup "Preset" with
        | some r => if r.isArr then some r else none
        | none => none
    | none =>
      match v.lookup "Preset" with
      | some r => if r.isArr then some r else none
      | none => none
  else none

/-- The last-resort structural scan of `listPresets`
(src/unnamed/part_001 lines 798-822): walk the response's own keys in order
and stop at the first array or nested hit. -/
def scanFields : List (String × Json) → Option Json
  | [] => none
  | (_, v) :: rest =>
    match arrayPresetHit v with
    | some found => some found
    | none =>
      match nestedPresetHit v with
      | some found => some found
      | none => scanFields rest

/-- Promotion of a singular object to a one-element sequence
(`Array.isArray(x) ? x : [x]`). -/
def promoteToList (q : Json) : Json :=
  if q.isArr then q else Json.arr [q]

/-- Third group of alternate schema paths in `listPresets`: a root-level
array, else the structural scan over a plain object
(src/unnamed/part_001 lines 793-822). -/
def presetCandidateAlt3 (response : Json) : Option Json :=
  if response.isArr then some response
  else
    match response with
    | .obj fields => scanFields fields
    | _ => none

/-- Alternate schema path: a root-level `Presets` field, promoted to a
sequence when singular (src/unnamed/part_001 lines 789-792). -/
def presetCandidateAlt2 (response : Json) : Option Json :=
  match response.lookup "Presets" with
  | some q => if q.truthy then some (promoteToList q) else presetCandidateAlt3 response
  | none => presetCandidateAlt3 response

/-- Alternate schema path: a root-level `preset` field, promoted to a
sequence when singular (src/unnamed/part_001 lines 785-788). -/
def presetCandidateAlt (response : Json) : Option Json :=
  match response.lookup "preset" with
  | some q => if q.truthy then some (promoteToList q) else presetCandidateAlt2 response
  | none => presetCandidateAlt2 response

/-- The raw-collection resolution cascade of `listPresets`
(src/unnamed/part_001 lines 770-822).  The primary path reads
`response.PtzPreset.preset`; when `PtzPreset` is a truthy plain object the
chain commits to it (a missing or falsy inner `preset` yields no candidate,
and the later alternatives are not tried — exactly as the if/else-if chain
behaves); when `PtzPreset` is an array it is the candidate; otherwise the
alternate paths run. -/
def presetCandidate (response : Json) : Option Json :=
  match response.lookup "PtzPreset" with
  | some p =>
    if p.truthy && p.isPlainObj then
      match p.lookup "preset" with
      | some q => if q.truthy then some q else none
      | none => none
    else if p.isArr then some p
    else presetCandidateAlt response
  | none => presetCandidateAlt response

/-- Raw preset list extraction: a falsy response yields `[]`
(src/unnamed/part_001 lines 763-768), and a missing or non-array candidate
degrades to `[]` (lines 824-836). -/
def rawPresets (response : Json) : List Json :=
  if response.truthy then
    match presetCandidate response with
    | some (Json.arr es) => es
    | _ => []
  else []

/-- The filter of `listPresets` (src/unnamed/part_001 line 844): drop null
entries and entries whose `id` and `ID` are both nullish. -/
def keepPreset (e : Json) : Bool :=
  jsNotNull e && (jsNonNullProp e "id" || jsNonNullProp e "ID")

/-- The strict flag test `x === 1 || x === true` used for the enable field. -/
def jsEnableFlag : Json → Bool
  | .num n => n == 1
  | .bool b => b
  | _ => false

/-- Two-key property read with a default: `e[k1] ?? e[k2] ?? d`. -/
def jsProp2Default (e : Json) (k1 k2 : String) (d : Json) : Json :=
  match nnOr (e.lookup k1) (nnOr (e.lookup k2) (some d)) with
  | some v => v
  | none => d

/-- The per-entry mapping of `listPresets`
(src/unnamed/part_001 lines 845-859): numeric id from `id ?? ID ?? 0`, name
from `name ?? Name` defaulting to "Preset <id>", enable defaulting to true
when the flag is nullish and otherwise compared strictly against 1 and true,
channel from `channel ?? Channel` defaulting to the queried channel. -/
def mkPreset (channel : Int) (e : Json) : PtzPreset :=
  let id := jsNumber (jsProp2Default e "id" "ID" (Json.num 0))
  let name := jsString (jsProp2Default e "name" "Name" (Json.str ("Preset " ++ toString id)))
  let enable :=
    match e.lookup "enable" with
    | none => true
    | some Json.null => true
    | some v => jsEnableFlag v
  let ch := jsNumber (jsProp2Default e "channel" "Channel" (Json.num channel))
  { id := id, name := name, enable := enable, channel := ch }

/-- Mirror of `PresetsModule.listPresets` (src/unnamed/part_001 lines
749-860) applied to the raw decoded response value: resolve the raw
collection, filter out entries without an identity, and map each survivor to
the canonical record. -/
def listPresets (channel : Int) (response : Json) : List PtzPreset :=
  ((rawPresets response).filter keepPreset).map (mkPreset channel)

/-- The primary response shape `{ PtzPreset: { preset: [...] } }`, used below
to state facts about whole-response normalization. -/
def wrapPresetResponse (entries : List Json) : Json :=
  Json.obj [("PtzPreset", Json.obj [("preset", Json.arr entries)])]

/-- A request handed to the client for one physical exchange: the command
name and the parameter body.  Validation code below returns `Except.error`
instead of producing a request, matching the source where every `throw`
happens before the `client.request`/`client.api` call, so a rejected write
performs no exchange. -/
structure SentRequest where
  cmd : String
  body : Json

/-- The `SetPtzPatrol` envelope body `{ channel, ...payload }`
(src/unnamed/part_001 lines 1047-1052).  The spread lets payload keys win
over the preset `channel` key; with first-match lookup semantics the payload
fields therefore come first. -/
def patrolEnvelope (channel : Int) (payload : Json) : Json :=
  match payload with
  | .obj fs => Json.obj (fs ++ [("channel", Json.num channel)])
  | _ => Json.obj [("channel", Json.num channel)]

/-- Speed check of one patrol step (src/unnamed/part_001 lines 1039-1042):
only a numeric speed is range-checked, against 1..64. -/
def patrolStepSpeedError (idx : Nat) (step : Json) : Option String :=
  match step.lookup "speed" with
  | some (Json.num s) =>
    if s < 1 ∨ 64 < s then
      some ("Patrol step " ++ toString idx ++ ": speed must be between 1 and 64, got: " ++ toString s)
    else none
  | _ => none

/-- Validation of one patrol step (src/unnamed/part_001 lines 1030-1044):
object-typed steps have a numeric `id` checked against 0..64 and then a
numeric `speed` checked against 1..64; the first violation is reported. -/
def patrolStepError (idx : Nat) (step : Json) : Option String :=
  if jsIsObjectType step then
    match step.lookup "id" with
    | some (Json.num n) =>
      if n < 0 ∨ 64 < n then
        some ("Patrol step " ++ toString idx ++ ": preset ID must be between 0 and 64, got: " ++ toString n)
      else patrolStepSpeedError idx step
    | _ => patrolStepSpeedError idx step
  else none

/-- The `forEach` walk over the patrol steps: first violation wins. -/
def firstStepError : Nat → List Json → Option String
  | _, [] => none
  | idx, s :: rest =>
    match patrolStepError idx s with
    | some e => some e
    | none => firstStepError (idx + 1) rest

/-- A patrol step satisfying the documented ranges: non-objects are passed
through, a numeric preset id must be in 0..64 and a numeric speed in 1..64. -/
def patrolStepOk (step : Json) : Bool :=
  !jsIsObjectType step ||
    ((match step.lookup "id" with
      | some (Json.num n) => decide (0 ≤ n ∧ n ≤ 64)
      | _ => true) &&
     (match step.lookup "speed" with
      | some (Json.num s) => decide (1 ≤ s ∧ s ≤ 64)
      | _ => true))

/-- Step-array validation and dispatch of `PresetsModule.setPatrol`
(src/unnamed/part_001 lines 1023-1052): an array-valued `preset` field is
checked for at most 16 steps and then step by step; afterwards the
SetPtzPatrol exchange is issued. -/
def setPatrolSteps (channel : Int) (payload : Json) : Except String SentRequest :=
  match payload.lookup "preset" with
  | some (Json.arr steps) =>
    if 16 < steps.length then
      .error ("Patrol can have at most 16 preset steps, got: " ++ toString steps.length)
    else
      match firstStepError 0 steps with
      | some e => .error e
      | none => .ok { cmd := "SetPtzPatrol", body := patrolEnvelope channel payload }
  | _ => .ok { cmd := "SetPtzPatrol", body := patrolEnvelope channel payload }

/-- Mirror of `PresetsModule.setPatrol` (src/unnamed/part_001 lines
1017-1053): a numeric patrol route id is checked against 0..5, then the step
array is validated, and only then is the request produced. -/
def setPatrol (channel : Int) (payload : Json) : Except String SentRequest :=
  match payload.lookup "id" with
  | some (Json.num n) =>
    if n < 0 ∨ 5 < n then
      .error ("Patrol ID must be between 0 and 5, got: " ++ toString n)
    else setPatrolSteps channel payload
  | _ => setPatrolSteps channel payload

/-- Validation of one pattern track (src/unnamed/part_001 lines 1109-1118):
object-typed tracks have a numeric `id` checked against 1..6. -/
def patternTrackError (idx : Nat) (tr : Json) : Option String :=
  if jsIsObjectType tr then
    match tr.lookup "id" with
    | some (Json.num n) =>
      if n < 1 ∨ 6 < n then
        some ("Track " ++ toString idx ++ ": track ID must be between 1 and 6, got: " ++ toString n)
      else none
    | _ => none
  else none

/-- The `forEach` walk over the pattern tracks: first violation wins. -/
def firstTrackError : Nat → List Json → Option String
  | _, [] => none
  | idx, t :: rest =>
    match patternTrackError idx t with
    | some e => some e
    | none => firstTrackError (idx + 1) rest

/-- A pattern track satisfying the documented range: non-objects pass, a
numeric track id must be in 1..6. -/
def trackOk (t : Json) : Bool :=
  !jsIsObjectType t ||
    (match t.lookup "id" with
     | some (Json.num n) => decide (1 ≤ n ∧ n ≤ 6)
     | _ => true)

/-- Mirror of `PresetsModule.setPattern` (src/unnamed/part_001 lines
1106-1122): an array-valued `track` field is validated track by track, then
the SetPtzTattern exchange is issued with the payload itself as body. -/
def setPattern (payload : Json) : Except String SentRequest :=
  match payload.lookup "track" with
  | some (Json.arr tracks) =>
    match firstTrackError 0 tracks with
    | some e => .error e
    | none => .ok { cmd := "SetPtzTattern", body := payload }
  | _ => .ok { cmd := "SetPtzTattern", body := payload }

/-- Mirror of `PresetsModule.gotoPreset` (src/unnamed/part_001 lines
937-961): the preset id is range-checked against 0..64; the speed option is
clamped by `Math.max(1, Math.min(64, speed))` and defaults to 32; the
PtzCtrl ToPos exchange is then issued (the settle delay, pure timing, is not
modelled). -/
def gotoPreset (channel : Int) (id : Int) (speedOpt : Option Int) : Except String SentRequest :=
  if id < 0 ∨ 64 < id then
    .error ("Preset ID must be between 0 and 64, got: " ++ toString id)
  else
    let speed :=
      match speedOpt with
      | some s => max 1 (min 64 s)
      | none => 32
    .ok { cmd := "PtzCtrl",
          body := Json.obj [("channel", Json.num channel), ("op", Json.str "ToPos"),
                            ("id", Json.num id), ("speed", Json.num speed)] }

/-- Parameters of `ptzCtrl` (interface `PtzCtrlParams`,
src/src/ptz.ts lines 22-30). -/
structure PtzCtrlParams where
  channel : Int
  op : String
  speed : Option Int := none
  id : Option Int := none
  x : Option Int := none
  y : Option Int := none
  z : Option Int := none

/-- Speed validation of `ptzCtrl` (src/src/ptz.ts lines 210-212): a provided
speed outside 1..64 is rejected. -/
def ptzSpeedError (p : PtzCtrlParams) : Option String :=
  match p.speed with
  | some s =>
    if s < 1 ∨ 64 < s then
      some ("PTZ speed must be between 1 and 64, got: " ++ toString s)
    else none
  | none => none

/-- Preset-id validation of `ptzCtrl` for ToPos (src/src/ptz.ts lines
215-219). -/
def ptzToPosIdError (p : PtzCtrlParams) : Option String :=
  if p.op == "ToPos" then
    match p.id with
    | some i =>
      if i < 0 ∨ 64 < i then
        some ("Preset ID must be between 0 and 64, got: " ++ toString i)
      else none
    | none => none
  else none

/-- Patrol-id validation of `ptzCtrl` for StartPatrol/StopPatrol
(src/src/ptz.ts lines 222-226). -/
def ptzPatrolIdError (p : PtzCtrlParams) : Option String :=
  if p.op == "StartPatrol" || p.op == "StopPatrol" then
    match p.id with
    | some i =>
      if i < 0 ∨ 5 < i then
        some ("Patrol ID must be between 0 and 5, got: " ++ toString i)
      else none
    | none => none
  else none

/-- The api parameter object built by `ptzCtrl` (src/src/ptz.ts lines
228-250): channel and op always, speed when provided, id for
ToPos/StartPatrol/StopPatrol, x/y (and optionally z) for ToPos. -/
def ptzCtrlBody (p : PtzCtrlParams) : Json :=
  Json.obj
    ([("channel", Json.num p.channel), ("op", Json.str p.op)]
      ++ (match p.speed with
          | some s => [("speed", Json.num s)]
          | none => [])
      ++ (match p.id with
          | some i =>
            if p.op == "ToPos" || p.op == "StartPatrol" || p.op == "StopPatrol" then
              [("id", Json.num i)]
            else []
          | none => [])
      ++ (if p.op == "ToPos" then
            match p.x, p.y with
            | some a, some b =>
              [("x", Json.num a), ("y", Json.num b)]
                ++ (match p.z with
                    | some c => [("z", Json.num c)]
                    | none => [])
            | _, _ => []
          else []))

/-- Mirror of `ptzCtrl` (src/src/ptz.ts lines 205-253): the three
validations run in order and throw before any exchange; otherwise the PtzCtrl
request is issued. -/
def ptzCtrl (p : PtzCtrlParams) : Except String SentRequest :=
  match ptzSpeedError p with
  | some e => .error e
  | none =>
    match ptzToPosIdError p with
    | some e => .error e
    | none =>
      match ptzPatrolIdError p with
      | some e => .error e
      | none => .ok { cmd := "PtzCtrl", body := ptzCtrlBody p }

/-- JavaScript `a || b` on values: the left operand when truthy, else the
right one. -/
def jsOr (a b : Json) : Json :=
  if a.truthy then a else b

/-- The route-step source of `setPtzPatrol` (src/src/ptz.ts line 418):
`config.preset || ("points" in config ? config.points : null) ||
("path" in config ? config.path : null)`.  A key-presence ternary equals the
property read defaulted to null, and an absent property (undefined) is, like
null, a falsy non-array, so both are represented by `Json.null`; the chain
only feeds truthiness selection and an Array.isArray test, for which the two
are indistinguishable. -/
def ptzPatrolRouteSource (config : Json) : Json :=
  jsOr (jsOr ((config.lookup "preset").getD Json.null)
             ((config.lookup "points").getD Json.null))
       ((config.lookup "path").getD Json.null)

/-- The step identifier read by `setPtzPatrol` (src/src/ptz.ts lines
428-429): `'id' in step ? step.id : 'presetId' in step ? step.presetId :
undefined` — key presence decides, so a present (even null) `id` shadows a
`presetId`. -/
def ptzStepIdValue (step : Json) : Option Json :=
  match step.lookup "id" with
  | some v => some v
  | none => step.lookup "presetId"

/-- Validation of one route step of `setPtzPatrol` (src/src/ptz.ts lines
426-442): object-typed steps have their identifier (`id`, else `presetId`)
checked against 0..64 when numeric, and then a numeric `speed` against
1..64; the speed check and both messages coincide with the PresetsModule
step check, so `patrolStepSpeedError` is reused for the speed half. -/
def ptzPatrolStepError (idx : Nat) (step : Json) : Option String :=
  if jsIsObjectType step then
    match ptzStepIdValue step with
    | some (Json.num n) =>
      if n < 0 ∨ 64 < n then
        some ("Patrol step " ++ toString idx ++ ": preset ID must be between 0 and 64, got: " ++ toString n)
      else patrolStepSpeedError idx step
    | _ => patrolStepSpeedError idx step
  else none

/-- The `forEach` walk over setPtzPatrol's route steps: first violation
wins. -/
def firstPtzStepError : Nat → List Json → Option String
  | _, [] => none
  | idx, s :: rest =>
    match ptzPatrolStepError idx s with
    | some e => some e
    | none => firstPtzStepError (idx + 1) rest

/-- A setPtzPatrol route step within the documented ranges: non-objects pass
through, a numeric identifier (`id`, else `presetId`) must be in 0..64 and a
numeric speed in 1..64. -/
def ptzStepOk (step : Json) : Bool :=
  !jsIsObjectType step ||
    ((match ptzStepIdValue step with
      | some (Json.num n) => decide (0 ≤ n ∧ n ≤ 64)
      | _ => true) &&
     (match step.lookup "speed" with
      | some (Json.num s) => decide (1 ≤ s ∧ s ≤ 64)
      | _ => true))

/-- Route validation and dispatch of `setPtzPatrol` (src/src/ptz.ts lines
417-443): when the resolved route source is an array it is checked for at
most 16 steps and then step by step; afterwards the function enters its
format dispatch (lines 445-627), every branch of which issues exactly one
SetPtzPatrol exchange.  The dispatch only reshapes the payload, which no
claim depends on, so the returned request carries the validated config in
place of the shaped body. -/
def setPtzPatrolSteps (channel : Int) (config : Json) : Except String SentRequest :=
  match ptzPatrolRouteSource config with
  | Json.arr steps =>
    if 16 < steps.length then
      .error ("Patrol can have at most 16 preset steps, got: " ++ toString steps.length)
    else
      match firstPtzStepError 0 steps with
      | some e => .error e
      | none => .ok { cmd := "SetPtzPatrol", body := config }
  | _ => .ok { cmd := "SetPtzPatrol", body := config }

/-- Mirror of the validation phase of `setPtzPatrol` (src/src/ptz.ts lines
407-443): a numeric patrol route id outside 0..5 throws
(`"id" in config && typeof config.id === "number"` is a present numeric id);
then the route steps resolved from `preset`/`points`/`path` are validated —
all before any exchange. -/
def setPtzPatrol (channel : Int) (config : Json) : Except String SentRequest :=
  match config.lookup "id" with
  | some (Json.num n) =>
    if n < 0 ∨ 5 < n then
      .error ("Patrol ID must be between 0 and 5, got: " ++ toString n)
    else setPtzPatrolSteps channel config
  | _ => setPtzPatrolSteps channel config

/-- Device-reported error payload (interface `ReolinkError`,
src/unnamed/part_000 lines 36-39). -/
structure ReolinkError where
  rspCode : Int
  detail : String
deriving DecidableEq

/-- The structured exception (class `ReolinkHttpError`,
src/unnamed/part_000 lines 98-121). -/
structure ReolinkHttpError where
  code : Int
  rspCode : Int
  detail : String
  message : String
deriving DecidableEq

/-- Constructor of `ReolinkHttpError` (src/unnamed/part_000 lines 111-120):
the code, device code and detail are stored as given, and the message embeds
the optional command name. -/
def mkReolinkHttpError (code rspCode : Int) (detail : String) (command : Option String) :
    ReolinkHttpError :=
  { code := code, rspCode := rspCode, detail := detail,
    message :=
      match command with
      | some c => c ++ " ERROR: " ++ detail ++ " (" ++ toString rspCode ++ ")"
      | none => detail ++ " (" ++ toString rspCode ++ ")" }

/-- What a PTZ wrapper throws: either a plain Error or the structured
exception. -/
inductive PtzThrown where
  | plain (msg : String)
  | http (e : ReolinkHttpError)
deriving DecidableEq

/-- Mirror of `handlePtzError` (src/src/ptz.ts lines 258-271): the device
code is mapped to a ReolinkHttpError whose detail is a canned message keyed
on that code. -/
def handlePtzError (rspCode : Int) (command : String) : PtzThrown :=
  if rspCode = 0 then
    .plain "handlePtzError called with success code (0) - this should not happen"
  else if rspCode = -1 then
    .http (mkReolinkHttpError 1 (-1) "Invalid preset or position" (some command))
  else if rspCode = -4 then
    .http (mkReolinkHttpError 1 (-4) "Parameter format error" (some command))
  else if rspCode = -9 then
    .http (mkReolinkHttpError 1 (-9) "Not supported on this model" (some command))
  else
    .http (mkReolinkHttpError 1 rspCode ("Unknown PTZ error " ++ toString rspCode) (some command))

/-- How the PTZ wrappers surface a device-reported failure found in a
response value (e.g. `setPtzGuard`, src/src/ptz.ts lines 330-335): only the
code of the `ReolinkError` is forwarded to `handlePtzError`; its detail text
is not. -/
def surfacePtzDeviceError (err : ReolinkError) (command : String) : PtzThrown :=
  handlePtzError err.rspCode command

/-- Modelled from the spec: a Command Envelope — command name, action
selector and parameter object (§3).  The Request Engine itself
(`ReolinkClient`, src/reolink.ts) is not among the available sources, only
its tests; this section models its submit contract from §4.2 and §8 of the
spec. -/
structure CommandEnvelope where
  cmd : String
  action : Int
  param : Json

/-- Modelled from the spec: a Result Entry, the device's per-command outcome
(§3) — a success value or a failure with device code and detail. -/
inductive ResultEntry where
  | success (value : Json)
  | failure (deviceCode : Int) (detail : String)

/-- Modelled from the spec: the token-invalid signal on one entry — the
specific device error code (-1) used for a rejected token; the
HTTP-unauthorized variant is identified the same way at this level. -/
def ResultEntry.tokenInvalid : ResultEntry → Bool
  | .failure c _ => c == -1
  | .success _ => false

/-- Modelled from the spec: a batch is invalidated when any of its entries
signals a token-invalid condition (§4.2 retry policy). -/
def batchTokenInvalid (rs : List ResultEntry) : Bool :=
  rs.any ResultEntry.tokenInvalid

/-- Modelled from the spec: the outcome the engine surfaces to the caller. -/
inductive SubmitOutcome where
  | ok (values : List Json)
  | authError (deviceCode : Int) (detail : String)
  | deviceError (deviceCode : Int) (detail : String)

/-- Modelled from the spec: classification of a non-token-invalid response
batch — the first Failure entry (if any) surfaces with its original device
code and detail text unchanged, otherwise the ordered success values are
returned (§4.3, §7). -/
def classifyBatch (rs : List ResultEntry) : SubmitOutcome :=
  match rs.find? (fun r => match r with | .failure _ _ => true | .success _ => false) with
  | some (.failure c d) => .deviceError c d
  | _ => .ok (rs.filterMap (fun r => match r with | .success v => some v | .failure _ _ => none))

/-- Modelled from the spec: the observable trace of one `submit` call — the
batches physically sent (in order), the number of re-authentications
performed, and the surfaced outcome. -/
structure SubmitTrace where
  sent : List (List CommandEnvelope)
  reauths : Nat
  outcome : SubmitOutcome

/-- Modelled from the spec (§4.2, §8): `submit` with an empty input performs
no exchange and returns an empty output; otherwise one physical exchange
happens; on a token-invalid signal the session is invalidated and
re-authenticated and the same ordered envelopes are resubmitted exactly
once; a second token-invalid signal surfaces as AuthError with no third
attempt; a non-auth failure is surfaced without any retry.  The device is
represented by its scripted response to the n-th physical submission of this
batch. -/
def submitWithRetry (cmds : List CommandEnvelope) (device : Nat → List ResultEntry) :
    SubmitTrace :=
  if cmds.isEmpty then { sent := [], reauths := 0, outcome := .ok [] }
  else
    let r1 := device 0
    if batchTokenInvalid r1 then
      let r2 := device 1
      if batchTokenInvalid r2 then
        { sent := [cmds, cmds], reauths := 1, outcome := .authError (-1) "Invalid token" }
      else
        { sent := [cmds, cmds], reauths := 1, outcome := classifyBatch r2 }
    else
      { sent := [cmds], reauths := 0, outcome := classifyBatch r1 }

/-- Modelled from the spec (§6 transport boundary): one envelope encoded for
the POST body `{ cmd, action, param }`. -/
def encodeEnvelope (c : CommandEnvelope) : Json :=
  Json.obj [("cmd", Json.str c.cmd), ("action", Json.num c.action), ("param", c.param)]

/-- Modelled from the spec (§4.2, §6): one physical exchange for a batch —
the body is the ordered array of encoded envelopes and the device's ordered
response array is returned as the Result Entry sequence; order is the sole
correlation mechanism, the engine adds none of its own. -/
def submitBatch (cmds : List CommandEnvelope) (device : List Json → List ResultEntry) :
    List ResultEntry :=
  device (cmds.map encodeEnvelope)

/-- C1 (amended): for both grid normalizers, whenever the resolved bit-string
length differs from width times height the result is a normalization error —
the bit-string is never truncated or padded — and a grid with nonzero width
and height whose bit-string length exactly equals width times height
normalizes to the same width, height and bit-string.  (A grid reporting a
zero dimension is rejected as invalid even when the lengths match.) -/
theorem C1_grid_normalization (s : MdScopePayload) (p : AiAreaPayload)
    (w h : Int) (t : String) :
    ((s.cols <|> s.width) = some w → (s.rows <|> s.height) = some h →
      (s.table <|> s.area <|> s.bits) = some t →
      (((t.length : Int) ≠ w * h → ∃ e, normalizeMdScope s = .error e) ∧
       (w ≠ 0 → h ≠ 0 → (t.length : Int) = w * h →
         normalizeMdScope s = .ok { width := w, height := h, bits := t }))) ∧
    ((p.width <|> p.cols) = some w → (p.height <|> p.rows) = some h →
      (p.area <|> p.table <|> p.bits) = some t →
      (((t.length : Int) ≠ w * h → ∃ e, normalizeAiArea p = .error e) ∧
       (w ≠ 0 → h ≠ 0 → (t.length : Int) = w * h →
         normalizeAiArea p = .ok { width := w, height := h, bits := t }))) := by
  constructor
  · intro hw hh ht
    constructor
    · intro hne
      unfold normalizeMdScope
      rw [hw, hh, ht]
      by_cases h0 : w = 0 ∨ h = 0
      · exact ⟨.invalidScope "Invalid motion detection scope received from device",
          by simp [h0]⟩
      · exact ⟨.sizeMismatch "Motion detection scope size mismatch", by simp [h0, hne]⟩
    · intro hw0 hh0 heq
      unfold normalizeMdScope
      rw [hw, hh, ht]
      simp [hw0, hh0, heq]
  · intro hw hh ht
    constructor
    · intro hne
      unfold normalizeAiArea
      rw [hw, hh, ht]
      by_cases h0 : w = 0 ∨ h = 0
      · exact ⟨.invalidScope "Invalid AI detection area received from device",
          by simp [h0]⟩
      · exact ⟨.sizeMismatch "AI detection area size mismatch", by simp [h0, hne]⟩
    · intro hw0 hh0 heq
      unfold normalizeAiArea
      rw [hw, hh, ht]
      simp [hw0, hh0, heq]

/-- Witness for C1 at the spec's own example: a 4 by 3 scope with a 12-char
bit-string normalizes to the same data. -/
theorem C1_grid_normalization_witness :
    normalizeMdScope { cols := some 4, rows := some 3, table := some "111100001111" } =
      .ok { width := 4, height := 3, bits := "111100001111" } :=
  ((C1_grid_normalization
      { cols := some 4, rows := some 3, table := some "111100001111" } {} 4 3
      "111100001111").1 rfl rfl rfl).2 (by decide) (by decide) (by decide)

/-- C1 counterexample: a scope reporting width 0 and height 0 with an empty
bit-string satisfies length = width times height (0 = 0 * 0), yet
normalization rejects it as invalid instead of returning the grid, because a
zero (falsy) dimension fails the validity test before the size check. -/
theorem C1_zero_dims_counterexample :
    ((("" : String).length : Int) = 0 * 0) ∧
    normalizeMdScope { width := some 0, height := some 0, bits := some "" } =
      .error (.invalidScope "Invalid motion detection scope received from device") :=
  ⟨by decide, rfl⟩

/-- C2 (spec-modelled): a token-invalid signal on the first exchange makes
the engine re-authenticate once and resubmit the same ordered envelopes
exactly once (two physical submissions in total, both equal to the input);
a second token-invalid signal surfaces as AuthError with no third attempt;
when the first exchange carries no token-invalid signal the batch is sent
once, never retried, and its classification is surfaced unchanged. -/
theorem C2_token_retry (cmds : List CommandEnvelope) (device : Nat → List ResultEntry)
    (hne : cmds ≠ []) :
    (batchTokenInvalid (device 0) = true →
      (submitWithRetry cmds device).sent = [cmds, cmds] ∧
      (submitWithRetry cmds device).reauths = 1 ∧
      (batchTokenInvalid (device 1) = true →
        (submitWithRetry cmds device).outcome = .authError (-1) "Invalid token")) ∧
    (batchTokenInvalid (device 0) = false →
      (submitWithRetry cmds device).sent = [cmds] ∧
      (submitWithRetry cmds device).reauths = 0 ∧
      (submitWithRetry cmds device).outcome = classifyBatch (device 0)) := by
  have hemp : cmds.isEmpty = false := by
    cases cmds with
    | nil => exact absurd rfl hne
    | cons a l => rfl
  constructor
  · intro h1
    refine ⟨?_, ?_, ?_⟩
    · by_cases h2 : batchTokenInvalid (device 1) = true
      · simp [submitWithRetry, hemp, h1, h2]
      · simp [submitWithRetry, hemp, h1, h2]
    · by_cases h2 : batchTokenInvalid (device 1) = true
      · simp [submitWithRetry, hemp, h1, h2]
      · simp [submitWithRetry, hemp, h1, h2]
    · intro h2
      simp [submitWithRetry, hemp, h1, h2]
  · intro h1
    simp [submitWithRetry, hemp, h1]

/-- Witness for C2: a one-command batch against a device that reports an
invalid token on every attempt is submitted exactly twice and surfaces as an
auth error. -/
theorem C2_token_retry_witness :
    (submitWithRetry [{ cmd := "GetDevInfo", action := 0, param := Json.obj [] }]
        (fun _ => [ResultEntry.failure (-1) "Invalid token"])).sent =
      [[{ cmd := "GetDevInfo", action := 0, param := Json.obj [] }],
       [{ cmd := "GetDevInfo", action := 0, param := Json.obj [] }]] ∧
    (submitWithRetry [{ cmd := "GetDevInfo", action := 0, param := Json.obj [] }]
        (fun _ => [ResultEntry.failure (-1) "Invalid token"])).outcome =
      .authError (-1) "Invalid token" := by
  have h := C2_token_retry [{ cmd := "GetDevInfo", action := 0, param := Json.obj [] }]
    (fun _ => [ResultEntry.failure (-1) "Invalid token"]) (by simp)
  exact ⟨(h.1 rfl).1, (h.1 rfl).2.2 rfl⟩

/-- C3 (spec-modelled): for a device that evaluates each encoded envelope of
the batch body independently and in order, the Result Entry sequence the
engine returns for a non-empty submission has the same length as the input,
and the entry at every index is the device's outcome for the command at the
same index — order being the sole correlation mechanism. -/
theorem C3_order_preserved (cmds : List CommandEnvelope)
    (device : List Json → List ResultEntry) (evalOne : Json → ResultEntry)
    (hne : cmds ≠ [])
    (hdev : ∀ body : List Json, device body = body.map evalOne) :
    (submitBatch cmds device).length = cmds.length ∧
    ∀ i : Nat,
      (submitBatch cmds device)[i]? = (cmds[i]?).map (fun c => evalOne (encodeEnvelope c)) := by
  constructor
  · simp [submitBatch, hdev]
  · intro i
    simp only [submitBatch, hdev, List.map_map, List.getElem?_map]
    rfl

/-- Witness for C3 at the spec's two-command scenario. -/
theorem C3_order_preserved_witness :
    (submitBatch
        [{ cmd := "GetDevInfo", action := 0, param := Json.obj [] },
         { cmd := "GetEnc", action := 0, param := Json.obj [("channel", Json.num 0)] }]
        (fun body => body.map ResultEntry.success)).length = 2 := by
  have h := C3_order_preserved
    [{ cmd := "GetDevInfo", action := 0, param := Json.obj [] },
     { cmd := "GetEnc", action := 0, param := Json.obj [("channel", Json.num 0)] }]
    (fun body => body.map ResultEntry.success) ResultEntry.success (by simp) (fun _ => rfl)
  exact h.1.trans rfl

/-- C4 (spec-modelled): submitting an empty command sequence returns an empty
result sequence with no physical submission and no re-authentication. -/
theorem C4_empty_submit (device : Nat → List ResultEntry) :
    submitWithRetry [] device = { sent := [], reauths := 0, outcome := .ok [] } := rfl

/-- C5: for any preset payload list, every known alternate schema shape —
object-wrapped array under PtzPreset.preset (the primary shape), PtzPreset
directly an array, a root-level preset or Presets field, a root-level array,
and the duck-typed fallback under an arbitrary other key — normalizes to the
identical canonical preset sequence; and a singular object under preset is
promoted to the same sequence as its one-element array. -/
theorem C5_alternate_shapes_agree (channel : Int) (ps : List Json) (k : String) (p : Json)
    (hne : ps ≠ []) (hhead : looksLikePresetHead ps = true)
    (hk1 : k ≠ "PtzPreset") (hk2 : k ≠ "preset") (hk3 : k ≠ "Presets")
    (hp : p.truthy = true) (hpa : p.isArr = false) :
    listPresets channel (Json.obj [("PtzPreset", Json.arr ps)]) =
      listPresets channel (wrapPresetResponse ps) ∧
    listPresets channel (Json.obj [("preset", Json.arr ps)]) =
      listPresets channel (wrapPresetResponse ps) ∧
    listPresets channel (Json.obj [("Presets", Json.arr ps)]) =
      listPresets channel (wrapPresetResponse ps) ∧
    listPresets channel (Json.arr ps) =
      listPresets channel (wrapPresetResponse ps) ∧
    listPresets channel (Json.obj [(k, Json.arr ps)]) =
      listPresets channel (wrapPresetResponse ps) ∧
    listPresets channel (Json.obj [("preset", p)]) =
      listPresets channel (Json.arr [p]) := by
  have hk1b : (k == "PtzPreset") = false := beq_eq_false_iff_ne.mpr hk1
  have hk2b : (k == "preset") = false := beq_eq_false_iff_ne.mpr hk2
  have hk3b : (k == "Presets") = false := beq_eq_false_iff_ne.mpr hk3
  refine ⟨rfl, rfl, rfl, rfl, ?_, ?_⟩
  · have l1 : (Json.obj [(k, Json.arr ps)]).lookup "PtzPreset" = none := by
      simp [Json.lookup, List.find?, hk1b]
    have l2 : (Json.obj [(k, Json.arr ps)]).lookup "preset" = none := by
      simp [Json.lookup, List.find?, hk2b]
    have l3 : (Json.obj [(k, Json.arr ps)]).lookup "Presets" = none := by
      simp [Json.lookup, List.find?, hk3b]
    have hcand : presetCandidate (Json.obj [(k, Json.arr ps)]) = some (Json.arr ps) := by
      unfold presetCandidate
      rw [l1]
      unfold presetCandidateAlt
      rw [l2]
      unfold presetCandidateAlt2
      rw [l3]
      unfold presetCandidateAlt3
      simp only [Json.isArr, Bool.false_eq_true, if_false, scanFields, arrayPresetHit, hhead,
        if_true]
    have hraw : rawPresets (Json.obj [(k, Json.arr ps)]) = ps := by
      unfold rawPresets
      rw [hcand]
      rfl
    show ((rawPresets (Json.obj [(k, Json.arr ps)])).filter keepPreset).map (mkPreset channel) =
      listPresets channel (wrapPresetResponse ps)
    rw [hraw]
    rfl
  · have hcand : presetCandidate (Json.obj [("preset", p)]) = some (Json.arr [p]) := by
      show (if p.truthy then some (promoteToList p)
            else presetCandidateAlt2 (Json.obj [("preset", p)])) = some (Json.arr [p])
      rw [hp]
      simp [promoteToList, hpa]
    have hraw : rawPresets (Json.obj [("preset", p)]) = [p] := by
      unfold rawPresets
      rw [hcand]
      rfl
    show ((rawPresets (Json.obj [("preset", p)])).filter keepPreset).map (mkPreset channel) =
      listPresets channel (Json.arr [p])
    rw [hraw]
    rfl

/-- Witness for C5 on a concrete one-preset payload and the fallback key
"data". -/
theorem C5_alternate_shapes_agree_witness :
    listPresets 0 (Json.obj [("data", Json.arr [Json.obj [("id", Json.num 1)]])]) =
      listPresets 0 (wrapPresetResponse [Json.obj [("id", Json.num 1)]]) :=
  (C5_alternate_shapes_agree 0 [Json.obj [("id", Json.num 1)]] "data"
    (Json.obj [("id", Json.num 2)]) (by simp) rfl (by decide) (by decide) (by decide)
    rfl rfl).2.2.2.2.1

/-- C6: a raw preset entry that is null, or whose `id` and `ID` are both
absent or null, contributes nothing to the normalized collection — removing
it leaves the normalization unchanged — and a collection whose entries all
carry a non-null identifying key is retained in full, one canonical record
per entry. -/
theorem C6_identity_required (channel : Int) (xs ys : List Json) (e : Json)
    (he : e = Json.null ∨
      ((e.lookup "id" = none ∨ e.lookup "id" = some Json.null) ∧
       (e.lookup "ID" = none ∨ e.lookup "ID" = some Json.null))) :
    listPresets channel (wrapPresetResponse (xs ++ e :: ys)) =
      listPresets channel (wrapPresetResponse (xs ++ ys)) ∧
    ∀ entries : List Json,
      (∀ x ∈ entries,
        x ≠ Json.null ∧ (jsNonNullProp x "id" = true ∨ jsNonNullProp x "ID" = true)) →
      (listPresets channel (wrapPresetResponse entries)).length = entries.length := by
  have hwrap : ∀ l : List Json,
      listPresets channel (wrapPresetResponse l) = (l.filter keepPreset).map (mkPreset channel) :=
    fun _ => rfl
  have hnotnull : ∀ a : Json, a ≠ Json.null → jsNotNull a = true := by
    intro a h
    cases a with
    | null => exact absurd rfl h
    | bool b => rfl
    | num n => rfl
    | str s => rfl
    | arr es => rfl
    | obj fs => rfl
  constructor
  · have hkeep : keepPreset e = false := by
      rcases he with h | ⟨h1, h2⟩
      · rw [h]; rfl
      · have ha : jsNonNullProp e "id" = false := by
          unfold jsNonNullProp
          rcases h1 with h | h <;> rw [h]
        have hb : jsNonNullProp e "ID" = false := by
          unfold jsNonNullProp
          rcases h2 with h | h <;> rw [h]
        simp [keepPreset, ha, hb]
    rw [hwrap, hwrap, List.filter_append, List.filter_append, List.filter_cons, hkeep]
    simp
  · intro entries hall
    rw [hwrap, List.length_map]
    have : entries.filter keepPreset = entries := by
      rw [List.filter_eq_self]
      intro a ha
      obtain ⟨h1, h2⟩ := hall a ha
      rcases h2 with h | h <;> simp [keepPreset, hnotnull a h1, h]
    rw [this]

/-- Witness for C6: the repository's own test payload — a valid entry, a
null entry and an id-less entry — normalizes the same as without the bad
entry, keeping the identified ones. -/
theorem C6_identity_required_witness :
    listPresets 0 (wrapPresetResponse
        [Json.obj [("id", Json.num 1), ("name", Json.str "Valid"), ("enable", Json.num 1)],
         Json.obj [("name", Json.str "No ID"), ("enable", Json.num 1)]]) =
      listPresets 0 (wrapPresetResponse
        [Json.obj [("id", Json.num 1), ("name", Json.str "Valid"), ("enable", Json.num 1)]]) :=
  (C6_identity_required 0
    [Json.obj [("id", Json.num 1), ("name", Json.str "Valid"), ("enable", Json.num 1)]]
    [] (Json.obj [("name", Json.str "No ID"), ("enable", Json.num 1)])
    (Or.inr ⟨Or.inl rfl, Or.inl rfl⟩)).1

/-- C9 (amended): an `enable` flag that the device omits, or sends as null,
normalizes to true; a present non-null flag normalizes to true exactly when
it is the integer 1 or the boolean true, and to false for every other
non-null value. -/
theorem C9_enable_flag (channel : Int) (e : Json) :
    ((e.lookup "enable" = none ∨ e.lookup "enable" = some Json.null) →
      (mkPreset channel e).enable = true) ∧
    (∀ v : Json, e.lookup "enable" = some v → v ≠ Json.null →
      ((v = Json.num 1 ∨ v = Json.bool true → (mkPreset channel e).enable = true) ∧
       (v ≠ Json.num 1 → v ≠ Json.bool true → (mkPreset channel e).enable = false))) := by
  constructor
  · intro h
    rcases h with h | h <;> simp [mkPreset, h]
  · intro v hv hvn
    constructor
    · intro h1
      rcases h1 with h | h <;> subst h <;> simp [mkPreset, hv, jsEnableFlag]
    · intro h1 h2
      have hflag : jsEnableFlag v = false := by
        cases v with
        | null => exact absurd rfl hvn
        | bool b =>
          cases b with
          | true => exact absurd rfl h2
          | false => rfl
        | num n =>
          have : n ≠ 1 := fun hn => h1 (by rw [hn])
          simp [jsEnableFlag, this]
        | str s => rfl
        | arr es => rfl
        | obj fs => rfl
      cases hvv : v with
      | null => exact absurd hvv hvn
      | bool b => simp [mkPreset, hv, hvv, hvv ▸ hflag]
      | num n => simp [mkPreset, hv, hvv, hvv ▸ hflag]
      | str s => simp [mkPreset, hv, hvv, hvv ▸ hflag]
      | arr es => simp [mkPreset, hv, hvv, hvv ▸ hflag]
      | obj fs => simp [mkPreset, hv, hvv, hvv ▸ hflag]

/-- Witness for C9: a flag present as the integer 0 normalizes to false. -/
theorem C9_enable_flag_witness :
    (mkPreset 0 (Json.obj [("id", Json.num 1), ("enable", Json.num 0)])).enable = false :=
  ((C9_enable_flag 0 (Json.obj [("id", Json.num 1), ("enable", Json.num 0)])).2
    (Json.num 0) rfl (fun hcontra => Json.noConfusion hcontra)).2
    (fun hcontra => absurd (Json.num.inj hcontra) (by decide))
    (fun hcontra => Json.noConfusion hcontra)

/-- C9 counterexample: an `enable` flag that is present with the value null
— a present value that is neither the integer 1 nor the boolean true —
normalizes to true, not false: the code treats a null flag like an omitted
one. -/
theorem C9_null_enable_counterexample :
    ((Json.obj [("id", Json.num 1), ("enable", Json.null)]).lookup "enable" =
      some Json.null) ∧
    (listPresets 0 (wrapPresetResponse [Json.obj [("id", Json.num 1), ("enable", Json.null)]])).map
        (fun r => r.enable) = [true] :=
  ⟨rfl, rfl⟩

/-- The speed part of a patrol step validates silently exactly when any
numeric speed present is within 1..64. -/
theorem patrolStepSpeedError_none_iff (idx : Nat) (step : Json) :
    patrolStepSpeedError idx step = none ↔
      (match step.lookup "speed" with
       | some (Json.num s) => decide (1 ≤ s ∧ s ≤ 64)
       | _ => true) = true := by
  unfold patrolStepSpeedError
  cases hsp : step.lookup "speed" with
  | none => simp
  | some v =>
    cases v with
    | num s =>
      by_cases hs : s < 1 ∨ 64 < s
      · have hd : (decide (1 ≤ s ∧ s ≤ 64)) = false := decide_eq_false (by omega)
        simp [hs, hd]
      · have hd : (decide (1 ≤ s ∧ s ≤ 64)) = true := decide_eq_true (by omega)
        simp [hs, hd]
    | null => simp
    | bool b => simp
    | str s => simp
    | arr es => simp
    | obj fs => simp

/-- A patrol step validates silently exactly when it satisfies
`patrolStepOk`. -/
theorem patrolStepError_none_iff (idx : Nat) (step : Json) :
    patrolStepError idx step = none ↔ patrolStepOk step = true := by
  unfold patrolStepError patrolStepOk
  cases hobj : jsIsObjectType step with
  | false => simp
  | true =>
    cases hid : step.lookup "id" with
    | none => simp [patrolStepSpeedError_none_iff]
    | some v =>
      cases v with
      | num n =>
        by_cases hn : n < 0 ∨ 64 < n
        · have hd : (decide (0 ≤ n ∧ n ≤ 64)) = false := decide_eq_false (by omega)
          simp [hn, hd]
        · have hd : (decide (0 ≤ n ∧ n ≤ 64)) = true := decide_eq_true (by omega)
          simp [hn, hd, patrolStepSpeedError_none_iff]
      | null => simp [patrolStepSpeedError_none_iff]
      | bool b => simp [patrolStepSpeedError_none_iff]
      | str s => simp [patrolStepSpeedError_none_iff]
      | arr es => simp [patrolStepSpeedError_none_iff]
      | obj fs => simp [patrolStepSpeedError_none_iff]

/-- The step walk reports nothing exactly when every step is in range. -/
theorem firstStepError_none_iff (steps : List Json) : ∀ idx : Nat,
    firstStepError idx steps = none ↔ ∀ s ∈ steps, patrolStepOk s = true := by
  induction steps with
  | nil => intro idx; simp [firstStepError]
  | cons s rest ih =>
    intro idx
    unfold firstStepError
    cases hse : patrolStepError idx s with
    | some e =>
      constructor
      · intro h; exact absurd h (by simp)
      · intro h
        have hnone := (patrolStepError_none_iff idx s).mpr (h s (List.mem_cons_self s rest))
        rw [hnone] at hse
        exact absurd hse (by simp)
    | none =>
      rw [ih (idx + 1)]
      constructor
      · intro h x hx
        rcases List.mem_cons.mp hx with hx | hx
        · subst hx; exact (patrolStepError_none_iff idx x).mp hse
        · exact h x hx
      · intro h x hx
        exact h x (List.mem_cons_of_mem s hx)

/-- A violation-free payload lets `setPatrolSteps` send the SetPtzPatrol
request. -/
theorem setPatrolSteps_sends (channel : Int) (payload : Json)
    (h : ∀ steps : List Json, payload.lookup "preset" = some (Json.arr steps) →
      steps.length ≤ 16 ∧ ∀ s ∈ steps, patrolStepOk s = true) :
    setPatrolSteps channel payload =
      .ok { cmd := "SetPtzPatrol", body := patrolEnvelope channel payload } := by
  unfold setPatrolSteps
  cases hp : payload.lookup "preset" with
  | none => rfl
  | some v =>
    cases v with
    | arr steps =>
      obtain ⟨hlen, hall⟩ := h steps hp
      have h16 : ¬(16 < steps.length) := by omega
      simp [h16, (firstStepError_none_iff steps 0).mpr hall]
    | null => rfl
    | bool b => rfl
    | num n => rfl
    | str s => rfl
    | obj fs => rfl

/-- A pattern track validates silently exactly when it satisfies `trackOk`. -/
theorem patternTrackError_none_iff (idx : Nat) (t : Json) :
    patternTrackError idx t = none ↔ trackOk t = true := by
  unfold patternTrackError trackOk
  cases hobj : jsIsObjectType t with
  | false => simp
  | true =>
    cases hid : t.lookup "id" with
    | none => simp
    | some v =>
      cases v with
      | num n =>
        by_cases hn : n < 1 ∨ 6 < n
        · have hd : (decide (1 ≤ n ∧ n ≤ 6)) = false := decide_eq_false (by omega)
          simp [hn, hd]
        · have hd : (decide (1 ≤ n ∧ n ≤ 6)) = true := decide_eq_true (by omega)
          simp [hn, hd]
      | null => simp
      | bool b => simp
      | str s => simp
      | arr es => simp
      | obj fs => simp

/-- The track walk reports nothing exactly when every track is in range. -/
theorem firstTrackError_none_iff (tracks : List Json) : ∀ idx : Nat,
    firstTrackError idx tracks = none ↔ ∀ t ∈ tracks, trackOk t = true := by
  induction tracks with
  | nil => intro idx; simp [firstTrackError]
  | cons t rest ih =>
    intro idx
    unfold firstTrackError
    cases hse : patternTrackError idx t with
    | some e =>
      constructor
      · intro h; exact absurd h (by simp)
      · intro h
        have hnone := (patternTrackError_none_iff idx t).mpr (h t (List.mem_cons_self t rest))
        rw [hnone] at hse
        exact absurd hse (by simp)
    | none =>
      rw [ih (idx + 1)]
      constructor
      · intro h x hx
        rcases List.mem_cons.mp hx with hx | hx
        · subst hx; exact (patternTrackError_none_iff idx x).mp hse
        · exact h x hx
      · intro h x hx
        exact h x (List.mem_cons_of_mem t hx)

/-- A setPtzPatrol route step validates silently exactly when it satisfies
`ptzStepOk`. -/
theorem ptzPatrolStepError_none_iff (idx : Nat) (step : Json) :
    ptzPatrolStepError idx step = none ↔ ptzStepOk step = true := by
  unfold ptzPatrolStepError ptzStepOk
  cases hobj : jsIsObjectType step with
  | false => simp
  | true =>
    cases hid : ptzStepIdValue step with
    | none => simp [patrolStepSpeedError_none_iff]
    | some v =>
      cases v with
      | num n =>
        by_cases hn : n < 0 ∨ 64 < n
        · have hd : (decide (0 ≤ n ∧ n ≤ 64)) = false := decide_eq_false (by omega)
          simp [hn, hd]
        · have hd : (decide (0 ≤ n ∧ n ≤ 64)) = true := decide_eq_true (by omega)
          simp [hn, hd, patrolStepSpeedError_none_iff]
      | null => simp [patrolStepSpeedError_none_iff]
      | bool b => simp [patrolStepSpeedError_none_iff]
      | str s => simp [patrolStepSpeedError_none_iff]
      | arr es => simp [patrolStepSpeedError_none_iff]
      | obj fs => simp [patrolStepSpeedError_none_iff]

/-- The setPtzPatrol step walk reports nothing exactly when every step is in
range. -/
theorem firstPtzStepError_none_iff (steps : List Json) : ∀ idx : Nat,
    firstPtzStepError idx steps = none ↔ ∀ s ∈ steps, ptzStepOk s = true := by
  induction steps with
  | nil => intro idx; simp [firstPtzStepError]
  | cons s rest ih =>
    intro idx
    unfold firstPtzStepError
    cases hse : ptzPatrolStepError idx s with
    | some e =>
      constructor
      · intro h; exact absurd h (by simp)
      · intro h
        have hnone := (ptzPatrolStepError_none_iff idx s).mpr (h s (List.mem_cons_self s rest))
        rw [hnone] at hse
        exact absurd hse (by simp)
    | none =>
      rw [ih (idx + 1)]
      constructor
      · intro h x hx
        rcases List.mem_cons.mp hx with hx | hx
        · subst hx; exact (ptzPatrolStepError_none_iff idx x).mp hse
        · exact h x hx
      · intro h x hx
        exact h x (List.mem_cons_of_mem s hx)

/-- A violation-free config lets `setPtzPatrolSteps` reach the SetPtzPatrol
exchange. -/
theorem setPtzPatrolSteps_sends (channel : Int) (config : Json)
    (h : ∀ steps : List Json, ptzPatrolRouteSource config = Json.arr steps →
      steps.length ≤ 16 ∧ ∀ s ∈ steps, ptzStepOk s = true) :
    setPtzPatrolSteps channel config = .ok { cmd := "SetPtzPatrol", body := config } := by
  unfold setPtzPatrolSteps
  cases hp : ptzPatrolRouteSource config with
  | arr steps =>
    obtain ⟨hlen, hall⟩ := h steps hp
    have h16 : ¬(16 < steps.length) := by omega
    simp [h16, (firstPtzStepError_none_iff steps 0).mpr hall]
  | null => rfl
  | bool b => rfl
  | num n => rfl
  | str s => rfl
  | obj fs => rfl

/-- C7: every patrol or pattern write that carries route steps —
`PresetsModule.setPatrol` and `setPattern` (src/unnamed/part_001) as well as
`setPtzPatrol` (src/src/ptz.ts) — validates the steps before any exchange: a
numeric patrol id outside 0..5, more than 16 steps, a numeric step
identifier outside 0..64, a numeric step speed outside 1..64, or a numeric
track id outside 1..6 each make the call throw with no request produced, and
when every carried value is in range the request is sent. -/
theorem C7_route_write_validation (channel : Int) (payload trackPayload config : Json) :
    (∀ n : Int, payload.lookup "id" = some (Json.num n) → (n < 0 ∨ 5 < n) →
      ∃ e, setPatrol channel payload = .error e) ∧
    (∀ steps : List Json, payload.lookup "preset" = some (Json.arr steps) →
      (16 < steps.length → ∃ e, setPatrol channel payload = .error e) ∧
      (∀ s ∈ steps, patrolStepOk s = false → ∃ e, setPatrol channel payload = .error e)) ∧
    ((∀ n : Int, payload.lookup "id" = some (Json.num n) → 0 ≤ n ∧ n ≤ 5) →
     (∀ steps : List Json, payload.lookup "preset" = some (Json.arr steps) →
        steps.length ≤ 16 ∧ ∀ s ∈ steps, patrolStepOk s = true) →
     setPatrol channel payload =
       .ok { cmd := "SetPtzPatrol", body := patrolEnvelope channel payload }) ∧
    (∀ tracks : List Json, trackPayload.lookup "track" = some (Json.arr tracks) →
      (∀ t ∈ tracks, trackOk t = false → ∃ e, setPattern trackPayload = .error e) ∧
      ((∀ t ∈ tracks, trackOk t = true) →
        setPattern trackPayload = .ok { cmd := "SetPtzTattern", body := trackPayload })) ∧
    (∀ n : Int, config.lookup "id" = some (Json.num n) → (n < 0 ∨ 5 < n) →
      ∃ e, setPtzPatrol channel config = .error e) ∧
    (∀ steps : List Json, ptzPatrolRouteSource config = Json.arr steps →
      (16 < steps.length → ∃ e, setPtzPatrol channel config = .error e) ∧
      (∀ s ∈ steps, ptzStepOk s = false → ∃ e, setPtzPatrol channel config = .error e)) ∧
    ((∀ n : Int, config.lookup "id" = some (Json.num n) → 0 ≤ n ∧ n ≤ 5) →
     (∀ steps : List Json, ptzPatrolRouteSource config = Json.arr steps →
        steps.length ≤ 16 ∧ ∀ s ∈ steps, ptzStepOk s = true) →
     setPtzPatrol channel config = .ok { cmd := "SetPtzPatrol", body := config }) := by
  have hdisp : setPatrol channel payload = setPatrolSteps channel payload ∨
      ∃ e, setPatrol channel payload = .error e := by
    unfold setPatrol
    cases hid : payload.lookup "id" with
    | none => exact Or.inl rfl
    | some v =>
      cases v with
      | num n =>
        by_cases hn : n < 0 ∨ 5 < n
        · exact Or.inr ⟨"Patrol ID must be between 0 and 5, got: " ++ toString n,
            by simp [hn]⟩
        · exact Or.inl (by simp [hn])
      | null => exact Or.inl rfl
      | bool b => exact Or.inl rfl
      | str s => exact Or.inl rfl
      | arr es => exact Or.inl rfl
      | obj fs => exact Or.inl rfl
  have hdisp2 : setPtzPatrol channel config = setPtzPatrolSteps channel config ∨
      ∃ e, setPtzPatrol channel config = .error e := by
    unfold setPtzPatrol
    cases hid : config.lookup "id" with
    | none => exact Or.inl rfl
    | some v =>
      cases v with
      | num n =>
        by_cases hn : n < 0 ∨ 5 < n
        · exact Or.inr ⟨"Patrol ID must be between 0 and 5, got: " ++ toString n,
            by simp [hn]⟩
        · exact Or.inl (by simp [hn])
      | null => exact Or.inl rfl
      | bool b => exact Or.inl rfl
      | str s => exact Or.inl rfl
      | arr es => exact Or.inl rfl
      | obj fs => exact Or.inl rfl
  refine ⟨?_, ?_, ?_, ?_, ?_, ?_, ?_⟩
  · intro n hid hbad
    refine ⟨"Patrol ID must be between 0 and 5, got: " ++ toString n, ?_⟩
    unfold setPatrol
    rw [hid]
    simp [hbad]
  · intro steps hp
    constructor
    · intro hlen
      rcases hdisp with hd | hd
      · refine ⟨"Patrol can have at most 16 preset steps, got: " ++ toString steps.length, ?_⟩
        rw [hd]
        unfold setPatrolSteps
        rw [hp]
        simp [hlen]
      · exact hd
    · intro s hs hbad
      rcases hdisp with hd | hd
      · by_cases hlen : 16 < steps.length
        · refine ⟨"Patrol can have at most 16 preset steps, got: " ++ toString steps.length, ?_⟩
          rw [hd]
          unfold setPatrolSteps
          rw [hp]
          simp [hlen]
        · have hne2 : firstStepError 0 steps ≠ none := by
            intro hcontra
            have hok := (firstStepError_none_iff steps 0).mp hcontra s hs
            rw [hbad] at hok
            exact absurd hok (by simp)
          cases hfe : firstStepError 0 steps with
          | none => exact absurd hfe hne2
          | some e =>
            refine ⟨e, ?_⟩
            rw [hd]
            unfold setPatrolSteps
            rw [hp]
            simp [hlen, hfe]
      · exact hd
  · intro hidok hstepsok
    unfold setPatrol
    cases hid : payload.lookup "id" with
    | none => exact setPatrolSteps_sends channel payload hstepsok
    | some v =>
      cases v with
      | num n =>
        have hn := hidok n hid
        have h5 : ¬(n < 0 ∨ 5 < n) := by omega
        simp only [h5, if_false]
        exact setPatrolSteps_sends channel payload hstepsok
      | null => exact setPatrolSteps_sends channel payload hstepsok
      | bool b => exact setPatrolSteps_sends channel payload hstepsok
      | str s => exact setPatrolSteps_sends channel payload hstepsok
      | arr es => exact setPatrolSteps_sends channel payload hstepsok
      | obj fs => exact setPatrolSteps_sends channel payload hstepsok
  · intro tracks htr
    constructor
    · intro t ht hbad
      have hne2 : firstTrackError 0 tracks ≠ none := by
        intro hcontra
        have hok := (firstTrackError_none_iff tracks 0).mp hcontra t ht
        rw [hbad] at hok
        exact absurd hok (by simp)
      cases hfe : firstTrackError 0 tracks with
      | none => exact absurd hfe hne2
      | some e =>
        refine ⟨e, ?_⟩
        unfold setPattern
        rw [htr]
        simp [hfe]
    · intro hall
      unfold setPattern
      rw [htr]
      simp [(firstTrackError_none_iff tracks 0).mpr hall]
  · intro n hid hbad
    refine ⟨"Patrol ID must be between 0 and 5, got: " ++ toString n, ?_⟩
    unfold setPtzPatrol
    rw [hid]
    simp [hbad]
  · intro steps hp
    constructor
    · intro hlen
      rcases hdisp2 with hd | hd
      · refine ⟨"Patrol can have at most 16 preset steps, got: " ++ toString steps.length, ?_⟩
        rw [hd]
        unfold setPtzPatrolSteps
        rw [hp]
        simp [hlen]
      · exact hd
    · intro s hs hbad
      rcases hdisp2 with hd | hd
      · by_cases hlen : 16 < steps.length
        · refine ⟨"Patrol can have at most 16 preset steps, got: " ++ toString steps.length, ?_⟩
          rw [hd]
          unfold setPtzPatrolSteps
          rw [hp]
          simp [hlen]
        · have hne2 : firstPtzStepError 0 steps ≠ none := by
            intro hcontra
            have hok := (firstPtzStepError_none_iff steps 0).mp hcontra s hs
            rw [hbad] at hok
            exact absurd hok (by simp)
          cases hfe : firstPtzStepError 0 steps with
          | none => exact absurd hfe hne2
          | some e =>
            refine ⟨e, ?_⟩
            rw [hd]
            unfold setPtzPatrolSteps
            rw [hp]
            simp [hlen, hfe]
      · exact hd
  · intro hidok hstepsok
    unfold setPtzPatrol
    cases hid : config.lookup "id" with
    | none => exact setPtzPatrolSteps_sends channel config hstepsok
    | some v =>
      cases v with
      | num n =>
        have hn := hidok n hid
        have h5 : ¬(n < 0 ∨ 5 < n) := by omega
        simp only [h5, if_false]
        exact setPtzPatrolSteps_sends channel config hstepsok
      | null => exact setPtzPatrolSteps_sends channel config hstepsok
      | bool b => exact setPtzPatrolSteps_sends channel config hstepsok
      | str s => exact setPtzPatrolSteps_sends channel config hstepsok
      | arr es => exact setPtzPatrolSteps_sends channel config hstepsok
      | obj fs => exact setPtzPatrolSteps_sends channel config hstepsok

/-- Witness for C7: a one-step in-range PresetsModule patrol write goes
through to the device, and so does a legacy points-format setPtzPatrol write
whose step uses the presetId key. -/
theorem C7_route_write_validation_witness :
    setPatrol 0 (Json.obj [("id", Json.num 1),
        ("preset", Json.arr [Json.obj [("id", Json.num 1), ("speed", Json.num 10)]])]) =
      .ok { cmd := "SetPtzPatrol",
            body := patrolEnvelope 0 (Json.obj [("id", Json.num 1),
              ("preset", Json.arr [Json.obj [("id", Json.num 1), ("speed", Json.num 10)]])]) } ∧
    setPtzPatrol 0 (Json.obj [("id", Json.num 1), ("enable", Json.num 1),
        ("points", Json.arr [Json.obj [("presetId", Json.num 2), ("speed", Json.num 30),
          ("stayTime", Json.num 5)]])]) =
      .ok { cmd := "SetPtzPatrol",
            body := Json.obj [("id", Json.num 1), ("enable", Json.num 1),
              ("points", Json.arr [Json.obj [("presetId", Json.num 2), ("speed", Json.num 30),
                ("stayTime", Json.num 5)]])] } := by
  have h := C7_route_write_validation 0
    (Json.obj [("id", Json.num 1),
      ("preset", Json.arr [Json.obj [("id", Json.num 1), ("speed", Json.num 10)]])])
    (Json.obj [])
    (Json.obj [("id", Json.num 1), ("enable", Json.num 1),
      ("points", Json.arr [Json.obj [("presetId", Json.num 2), ("speed", Json.num 30),
        ("stayTime", Json.num 5)]])])
  constructor
  · refine h.2.2.1 ?_ ?_
    · intro n hcontra
      have h2 := Json.num.inj (Option.some.inj hcontra)
      omega
    · intro steps hcontra
      have h2 := Json.arr.inj (Option.some.inj hcontra)
      subst h2
      exact ⟨by decide, by decide⟩
  · refine h.2.2.2.2.2.2 ?_ ?_
    · intro n hcontra
      have h2 := Json.num.inj (Option.some.inj hcontra)
      omega
    · intro steps hcontra
      have h2 := Json.arr.inj hcontra
      subst h2
      exact ⟨by decide, by decide⟩

/-- C8 (amended): the structured exception preserves the code, device code
and detail text it is constructed with, and every PTZ classification of a
nonzero device code yields a structured exception carrying that device code
— but the detail text surfaced for such a failure is a canned message keyed
on the device code, not the device's own detail (see the counterexample). -/
theorem C8_error_fields (code rspCode : Int) (detail : String) (command : Option String)
    (r : Int) (cmd : String) (hr : r ≠ 0) :
    (mkReolinkHttpError code rspCode detail command).code = code ∧
    (mkReolinkHttpError code rspCode detail command).rspCode = rspCode ∧
    (mkReolinkHttpError code rspCode detail command).detail = detail ∧
    ∃ e, handlePtzError r cmd = .http e ∧ e.rspCode = r ∧ e.code = 1 := by
  refine ⟨rfl, rfl, rfl, ?_⟩
  unfold handlePtzError
  rw [if_neg hr]
  by_cases h1 : r = -1
  · rw [if_pos h1]
    exact ⟨_, rfl, h1.symm, rfl⟩
  · rw [if_neg h1]
    by_cases h4 : r = -4
    · rw [if_pos h4]
      exact ⟨_, rfl, h4.symm, rfl⟩
    · rw [if_neg h4]
      by_cases h9 : r = -9
      · rw [if_pos h9]
        exact ⟨_, rfl, h9.symm, rfl⟩
      · rw [if_neg h9]
        exact ⟨_, rfl, rfl, rfl⟩

/-- Witness for C8 at device code -9. -/
theorem C8_error_fields_witness :
    (mkReolinkHttpError 1 (-9) "Not supported" none).detail = "Not supported" ∧
    ∃ e, handlePtzError (-9) "SetPtzGuard" = .http e ∧ e.rspCode = -9 ∧ e.code = 1 := by
  have h := C8_error_fields 1 (-9) "Not supported" none (-9) "SetPtzGuard" (by decide)
  exact ⟨h.2.2.1, h.2.2.2⟩

/-- C8 counterexample: a device-reported failure with code -1 and detail
"please login first", surfaced through the PTZ wrappers' error
classification, becomes an exception whose detail is the canned text
"Invalid preset or position" — the device's own detail text is discarded by
that classification step. -/
theorem C8_detail_discarded_counterexample :
    surfacePtzDeviceError { rspCode := -1, detail := "please login first" } "SetPtzGuard" =
      .http (mkReolinkHttpError 1 (-1) "Invalid preset or position" (some "SetPtzGuard")) ∧
    (mkReolinkHttpError 1 (-1) "Invalid preset or position" (some "SetPtzGuard")).detail ≠
      "please login first" :=
  ⟨rfl, by decide⟩

/-- C10: `gotoPreset` never rejects a speed option — any provided speed is
clamped into 1..64 (below 1 becomes 1, above 64 becomes 64, in-range values
pass unchanged, absence defaults to 32) and the exchange proceeds — while an
out-of-range preset id is still rejected with no exchange; `ptzCtrl`, by
contrast, throws on any provided speed outside 1..64. -/
theorem C10_goto_preset_speed_clamp (channel id : Int) (p : PtzCtrlParams)
    (hid0 : 0 ≤ id) (hid64 : id ≤ 64) :
    (∀ s : Int,
      gotoPreset channel id (some s) =
        .ok { cmd := "PtzCtrl",
              body := Json.obj [("channel", Json.num channel), ("op", Json.str "ToPos"),
                                ("id", Json.num id), ("speed", Json.num (max 1 (min 64 s)))] } ∧
      1 ≤ max 1 (min 64 s) ∧ max 1 (min 64 s) ≤ 64 ∧
      (s < 1 → max 1 (min 64 s) = 1) ∧ (64 < s → max 1 (min 64 s) = 64) ∧
      (1 ≤ s → s ≤ 64 → max 1 (min 64 s) = s)) ∧
    gotoPreset channel id none =
      .ok { cmd := "PtzCtrl",
            body := Json.obj [("channel", Json.num channel), ("op", Json.str "ToPos"),
                              ("id", Json.num id), ("speed", Json.num 32)] } ∧
    (∀ idBad : Int, (idBad < 0 ∨ 64 < idBad) → ∀ sp : Option Int,
      ∃ e, gotoPreset channel idBad sp = .error e) ∧
    (∀ s : Int, p.speed = some s → (s < 1 ∨ 64 < s) → ∃ e, ptzCtrl p = .error e) := by
  have hok : ¬(id < 0 ∨ 64 < id) := by omega
  refine ⟨?_, ?_, ?_, ?_⟩
  · intro s
    refine ⟨?_, ?_, ?_, ?_, ?_, ?_⟩
    · unfold gotoPreset
      rw [if_neg hok]
    · exact le_max_left 1 (min 64 s)
    · exact max_le (by norm_num) (min_le_left 64 s)
    · intro hs
      rw [min_eq_right (by omega : s ≤ 64), max_eq_left (by omega : s ≤ 1)]
    · intro hs
      rw [min_eq_left (by omega : (64 : Int) ≤ s)]
      norm_num
    · intro hs1 hs64
      rw [min_eq_right hs64, max_eq_right hs1]
  · unfold gotoPreset
    rw [if_neg hok]
  · intro idBad hbad sp
    refine ⟨"Preset ID must be between 0 and 64, got: " ++ toString idBad, ?_⟩
    unfold gotoPreset
    rw [if_pos hbad]
  · intro s hps hbad
    have herr : ptzSpeedError p =
        some ("PTZ speed must be between 1 and 64, got: " ++ toString s) := by
      unfold ptzSpeedError
      rw [hps]
      simp [hbad]
    refine ⟨"PTZ speed must be between 1 and 64, got: " ++ toString s, ?_⟩
    unfold ptzCtrl
    rw [herr]

/-- Witness for C10: speed 100 clamps to 64 for preset 5, with the exchange
performed. -/
theorem C10_goto_preset_speed_clamp_witness :
    gotoPreset 0 5 (some 100) =
      .ok { cmd := "PtzCtrl",
            body := Json.obj [("channel", Json.num 0), ("op", Json.str "ToPos"),
                              ("id", Json.num 5), ("speed", Json.num (max 1 (min 64 100)))] } ∧
    (max 1 (min 64 (100 : Int))) = 64 :=
  ⟨((C10_goto_preset_speed_clamp 0 5 { channel := 0, op := "Left" }
      (by decide) (by decide)).1 100).1,
   by decide⟩

end Reolink
